import Mathlib

/-!
Shallow embedding of `allennlp/commands/predict.py`: the `predict`
subcommand's batch-prediction driver.

The module is orchestration glue: a `_PredictManager` owns a predictor
handle, an input source, an optional output sink and a batch size; its
`run()` reads records (raw JSON lines or dataset-reader instances),
groups them with `lazy_groups_of`, dispatches single-record vs. batch
predictor operations, and prints/writes results in order.

Modelling decisions:
* The predictor, dataset reader, `json.dumps`, `str()` on instances,
  `cached_path` and `open_compressed` are external collaborators; they are
  embedded as function-valued fields (of `Predictor` and `Env`).
  `open_compressed` returning `none` models the `OSError` raised on
  decompression-format detection failure.
* Python generators are finite here, so record production is embedded as
  eager list production; `lazy_groups_of` mirrors the chunking of
  `allennlp.common.util.lazy_groups_of` (islice loop: on `group_size = 0`
  the first slice is empty and it yields nothing).
* Side effects (console prints, output-file writes, closing the output
  file) are reified as an `Effect` trace; exceptions
  (`ConfigurationError`, the `assert` in `_get_instance_data`) become
  `Except` errors, which also captures that an escaping exception skips
  the rest of `run()` (in particular the close of the output file).
-/

/-- Python `str.isspace`: true iff the string is non-empty and every
character is whitespace (ASCII whitespace suffices for the lines at
issue). -/
def pyCharIsSpace (c : Char) : Bool :=
  c = ' ' || c = '\t' || c = '\n' || c = '\x0b' || c = '\x0c' || c = '\r'

def pyIsSpace (s : String) : Bool :=
  s.length != 0 && s.toList.all pyCharIsSpace

/-- `allennlp.common.util.lazy_groups_of`: chunks of size `group_size`,
last chunk may be shorter. With `group_size = 0` the islice loop breaks
immediately and yields nothing. -/
def lazy_groups_of : Nat → List α → List (List α)
  | _, [] => []
  | 0, _ :: _ => []
  | n + 1, x :: xs => (x :: xs).take (n + 1) :: lazy_groups_of (n + 1) ((x :: xs).drop (n + 1))
termination_by _ l => l.length
decreasing_by
  simp [List.length_drop]
  omega

/-- The dataset reader collaborator; `multiTask` embeds
`MultiTaskDatasetReader` (its `read` takes the `force_task` head name). -/
inductive DatasetReader (I : Type) where
  | plain (read : String → List I)
  | multiTask (read : String → String → List I)

def DatasetReader.isMultiTask : DatasetReader I → Bool
  | .plain _ => false
  | .multiTask _ => true

/-- The predictor collaborator: single and batch operations over JSON
records (`J`) and instances (`I`), producing results (`R`); `dump_line`
serializes one result to an output line, `load_line` parses one input
line. `dataset_reader` is the predictor's `_dataset_reader` field. -/
structure Predictor (J I R : Type) where
  predict_json : J → R
  predict_batch_json : List J → List R
  predict_instance : I → R
  predict_batch_instance : List I → List R
  dump_line : R → String
  load_line : String → J
  dataset_reader : DatasetReader I

/-- Exceptions that can escape the embedded code paths. -/
inductive PredictError where
  | configurationError (msg : String)
  | assertionError
deriving DecidableEq, Repr

/-- Observable side effects of a run, in order: console prints,
output-file writes, and the close of the output file. -/
inductive Effect where
  | printed (s : String)
  | wrote (s : String)
  | closedOutput
deriving DecidableEq, Repr

/-- External world: standard input lines, `open_compressed` (second
argument is the `compression_type`; `none` result models `OSError`),
`cached_path`, `json.dumps` on JSON records and `str()` on instances. -/
structure Env (J I : Type) where
  stdin : List String
  openCompressed : String → Option String → Option (List String)
  cachedPath : String → String
  dumps : J → String
  instStr : I → String

/-- State of `_PredictManager` after `__init__` assigned its fields. -/
structure PredictManager (J I R : Type) where
  predictor : Predictor J I R
  input_file : String
  output_file : Option String
  batch_size : Nat
  print_to_console : Bool
  dataset_reader : Option (DatasetReader I)
  compression_type : Option String
  multitask_head : Option String

def readerIsMultiTask : Option (DatasetReader I) → Bool
  | some r => r.isMultiTask
  | none => false

/-- `_PredictManager.__init__`: assigns fields (the dataset reader is
taken from the predictor only when `has_dataset_reader`), then validates
the multitask-head configuration; each `raise ConfigurationError`
becomes an `Except.error`. It receives no input source, so no record
can be read during construction. -/
def mk_predict_manager (predictor : Predictor J I R) (input_file : String)
    (output_file : Option String) (batch_size : Nat) (print_to_console : Bool)
    (has_dataset_reader : Bool) (compression_type : Option String)
    (multitask_head : Option String) :
    Except PredictError (PredictManager J I R) :=
  let dr : Option (DatasetReader I) :=
    if has_dataset_reader then some predictor.dataset_reader else none
  let m : PredictManager J I R :=
    { predictor := predictor
      input_file := input_file
      output_file := output_file
      batch_size := batch_size
      print_to_console := print_to_console
      dataset_reader := dr
      compression_type := compression_type
      multitask_head := multitask_head }
  if multitask_head.isSome then
    if dr.isNone then
      .error (.configurationError "You must use a dataset reader when using --multitask-head.")
    else if !readerIsMultiTask dr then
      .error (.configurationError "--multitask-head only works with a multitask dataset reader.")
    else
      .ok m
  else if readerIsMultiTask dr then
    .error (.configurationError
      "You must specify --multitask-head when using a multitask dataset reader.")
  else
    .ok m

/-- `_PredictManager._predict_json`: a length-1 batch goes through
`predict_json`, any other batch through `predict_batch_json`; each
result is serialized with `dump_line`. -/
def PredictManager.predictJson (m : PredictManager J I R) (batch_data : List J) :
    List String :=
  let results :=
    match batch_data with
    | [b] => [m.predictor.predict_json b]
    | _ => m.predictor.predict_batch_json batch_data
  results.map m.predictor.dump_line

/-- `_PredictManager._predict_instances`: same dispatch for instances. -/
def PredictManager.predictIns (m : PredictManager J I R) (batch_data : List I) :
    List String :=
  let results :=
    match batch_data with
    | [b] => [m.predictor.predict_instance b]
    | _ => m.predictor.predict_batch_instance batch_data
  results.map m.predictor.dump_line

/-- `_PredictManager._maybe_print_to_console_and_file`: console prints
(Python `print(f"input {index}: ", model_input)` and
`print("prediction: ", prediction)` put two spaces before the value),
then the output-file write when a sink exists. -/
def PredictManager.maybePrint (m : PredictManager J I R) (index : Nat)
    (prediction : String) (model_input : Option String) : List Effect :=
  (if m.print_to_console then
    (match model_input with
      | some mi => [Effect.printed ("input " ++ toString index ++ ":  " ++ mi)]
      | none => []) ++ [Effect.printed ("prediction:  " ++ prediction)]
   else []) ++
  (if m.output_file.isSome then [Effect.wrote prediction] else [])

/-- The per-line loop body shared by all branches of
`_PredictManager._get_json_data`: skip lines for which `line.isspace()`
holds, parse the rest with the predictor's `load_line`. -/
def yieldLines (p : Predictor J I R) : List String → List J
  | [] => []
  | line :: rest =>
    if pyIsSpace line then yieldLines p rest
    else p.load_line line :: yieldLines p rest

/-- `_PredictManager._get_json_data`: stdin when the input file is `-`;
otherwise `open_compressed` on the cached path, with automatic format
detection when no compression type is set. An `OSError` (here: `none`
from `openCompressed`) prints one message and produces no records.
Returns (printed messages, records yielded). -/
def PredictManager.getJsonData (m : PredictManager J I R) (env : Env J I) :
    List String × List J :=
  if m.input_file = "-" then
    ([], yieldLines m.predictor env.stdin)
  else
    let input_file := env.cachedPath m.input_file
    match m.compression_type with
    | none =>
      match env.openCompressed input_file none with
      | some lines => ([], yieldLines m.predictor lines)
      | none =>
        (["Automatic detection failed, please specify the compression type argument."], [])
    | some ct =>
      match env.openCompressed input_file (some ct) with
      | some lines => ([], yieldLines m.predictor lines)
      | none => (["please specify the correct compression type argument."], [])

/-- `_PredictManager._get_instance_data`: stdin is rejected, a missing
reader is rejected, a multitask reader is read with `force_task` (the
`assert self._multitask_head is not None` becomes `assertionError`),
a plain reader is read directly. -/
def PredictManager.getInstanceData (m : PredictManager J I R) :
    Except PredictError (List I) :=
  if m.input_file = "-" then
    .error (.configurationError "stdin is not an option when using a DatasetReader.")
  else
    match m.dataset_reader with
    | none => .error (.configurationError "To generate instances directly, pass a DatasetReader.")
    | some (.multiTask read) =>
      match m.multitask_head with
      | some head => .ok (read m.input_file head)
      | none => .error .assertionError
    | some (.plain read) => .ok (read m.input_file)

/-- The inner loop of `run()`: for each `(record, result)` pair of a
zipped batch, emit via `_maybe_print_to_console_and_file` and advance
`index`. -/
def emitPairs (m : PredictManager J I R) (render : α → String) :
    Nat → List (α × String) → List Effect
  | _, [] => []
  | index, (a, s) :: rest =>
    m.maybePrint index s (some (render a)) ++ emitPairs m render (index + 1) rest

/-- The outer loop of `run()`: each batch is zipped with the predictor's
output for it (`zip` truncates on length mismatch, as in Python), and
`index` carries across batches. -/
def runBatches (m : PredictManager J I R) (render : α → String)
    (predictF : List α → List String) : Nat → List (List α) → List Effect
  | _, [] => []
  | index, batch :: rest =>
    let zipped := batch.zip (predictF batch)
    emitPairs m render index zipped ++
      runBatches m render predictF (index + zipped.length) rest

/-- `_PredictManager.run`: reader mode when a dataset reader is
attached, raw-JSON mode otherwise; batches come from `lazy_groups_of`;
the output file is closed at the end when it exists. An exception from
`_get_instance_data` escapes before any effect (and before the close). -/
def PredictManager.run (m : PredictManager J I R) (env : Env J I) :
    Except PredictError (List Effect) :=
  let closeFx : List Effect :=
    if m.output_file.isSome then [Effect.closedOutput] else []
  if m.dataset_reader.isSome then
    match m.getInstanceData with
    | .error e => .error e
    | .ok instances =>
      .ok (runBatches m env.instStr m.predictIns 0
            (lazy_groups_of m.batch_size instances) ++ closeFx)
  else
    let (msgs, records) := m.getJsonData env
    .ok (msgs.map Effect.printed ++
          runBatches m env.dumps m.predictJson 0
            (lazy_groups_of m.batch_size records) ++ closeFx)

/-- The parsed CLI arguments of the `predict` subcommand. -/
structure Args where
  archive_file : String
  input_file : String
  output_file : Option String
  weights_file : Option String
  batch_size : Nat
  silent : Bool
  cuda_device : Int
  use_dataset_reader : Bool
  dataset_reader_choice : String
  compression_type : Option String
  multitask_head : Option String
  ovr : String
  predictor_name : Option String
  predictor_args : String
  file_friendly_logging : Bool

/-- Outcome of the `_predict` entry point (after the predictor has been
built by `_get_predictor`, which is external model loading). -/
inductive CliOutcome (J I R : Type) where
  | exitedEarly (msgs : List String)
  | constructionFailed (e : PredictError)
  | ran (m : PredictManager J I R) (result : Except PredictError (List Effect))

/-- The `_predict` entry point. After the silent-without-output-file
early exit, it constructs the manager and runs it. The source call site
passes exactly seven positional arguments to `_PredictManager`, so
`args.multitask_head` is bound to the seventh parameter
`compression_type`, and the `multitask_head` parameter keeps its
default `None`. -/
def cliPredict (predictor : Predictor J I R) (args : Args) (env : Env J I) :
    CliOutcome J I R :=
  if args.silent && args.output_file.isNone then
    .exitedEarly ["--silent specified without --output-file.",
                  "Exiting early because no output will be created."]
  else
    match mk_predict_manager predictor args.input_file args.output_file
        args.batch_size (!args.silent) args.use_dataset_reader
        args.multitask_head none with
    | .error e => .constructionFailed e
    | .ok m => .ran m (m.run env)

/-! ### Structural lemmas about chunking and the run loops -/

/-- Flattening the chunks of `lazy_groups_of` recovers the input for a
positive group size. -/
theorem lazy_groups_of_flatten_succ (n : Nat) (l : List α) :
    (lazy_groups_of (n + 1) l).flatten = l := by
  generalize hlen : l.length = len
  induction len using Nat.strong_induction_on generalizing l with
  | _ len ih =>
    match l with
    | [] => simp [lazy_groups_of]
    | x :: xs =>
      simp only [List.length_cons] at hlen
      rw [lazy_groups_of]
      simp only [List.flatten_cons]
      rw [ih ((x :: xs).drop (n + 1)).length
        (by simp only [List.length_drop, List.length_cons]; omega) _ rfl]
      exact List.take_append_drop _ _

/-- Flattening the chunks of `lazy_groups_of` recovers the input when the
group size is at least 1: batching neither drops nor reorders records. -/
theorem lazy_groups_of_flatten (n : Nat) (hn : 1 ≤ n) (l : List α) :
    (lazy_groups_of n l).flatten = l := by
  obtain ⟨m, rfl⟩ : ∃ m, n = m + 1 := ⟨n - 1, by omega⟩
  exact lazy_groups_of_flatten_succ m l

/-- `emitPairs` over an appended pair list splits, with the index offset
by the length of the first part. -/
theorem emitPairs_append (m : PredictManager J I R) (render : α → String)
    (idx : Nat) (l₁ l₂ : List (α × String)) :
    emitPairs m render idx (l₁ ++ l₂) =
      emitPairs m render idx l₁ ++ emitPairs m render (idx + l₁.length) l₂ := by
  induction l₁ generalizing idx with
  | nil => simp [emitPairs]
  | cons p rest ih =>
    obtain ⟨a, s⟩ := p
    simp only [List.cons_append, emitPairs, List.length_cons, List.append_eq]
    rw [ih (idx + 1), List.append_assoc]
    have h : idx + 1 + rest.length = idx + (rest.length + 1) := by omega
    rw [h]

/-- The batched loop equals a single pass of `emitPairs` over the
concatenation of the per-batch zips. -/
theorem runBatches_eq_emitPairs (m : PredictManager J I R) (render : α → String)
    (predictF : List α → List String) (idx : Nat) (chunks : List (List α)) :
    runBatches m render predictF idx chunks =
      emitPairs m render idx (chunks.flatMap (fun b => b.zip (predictF b))) := by
  induction chunks generalizing idx with
  | nil => simp [runBatches, emitPairs]
  | cons b rest ih =>
    simp only [runBatches, List.flatMap_cons]
    rw [emitPairs_append, ih]

/-- When `f` preserves lengths, zipping chunkwise and flattening equals
zipping the flattened record list with the flattened result list. -/
theorem flatMap_zip_eq (f : List α → List String) (chunks : List (List α))
    (hlen : ∀ b, (f b).length = b.length) :
    chunks.flatMap (fun b => b.zip (f b)) = chunks.flatten.zip (chunks.flatMap f) := by
  induction chunks with
  | nil => simp
  | cons b rest ih =>
    simp only [List.flatMap_cons, List.flatten_cons, ih]
    rw [List.zip_append (hlen b).symm]

/-- Length of the flattened results when `f` preserves lengths. -/
theorem length_flatMap_eq (f : List α → List String) (chunks : List (List α))
    (hlen : ∀ b, (f b).length = b.length) :
    (chunks.flatMap f).length = chunks.flatten.length := by
  induction chunks with
  | nil => rfl
  | cons b rest ih => simp [hlen b, ih]

/-- `_predict_json` preserves batch length whenever the predictor's
batch operation does. -/
theorem predictJson_length (m : PredictManager J I R)
    (hlen : ∀ b, (m.predictor.predict_batch_json b).length = b.length)
    (b : List J) : (m.predictJson b).length = b.length := by
  match b with
  | [] => simp [PredictManager.predictJson, hlen]
  | [x] => simp [PredictManager.predictJson]
  | x :: y :: rest => simp [PredictManager.predictJson, hlen]

/-- `_predict_instances` preserves batch length whenever the
predictor's batch operation does. -/
theorem predictIns_length (m : PredictManager J I R)
    (hlen : ∀ b, (m.predictor.predict_batch_instance b).length = b.length)
    (b : List I) : (m.predictIns b).length = b.length := by
  match b with
  | [] => simp [PredictManager.predictIns, hlen]
  | [x] => simp [PredictManager.predictIns]
  | x :: y :: rest => simp [PredictManager.predictIns, hlen]

/-- `run()` in raw-JSON mode: printed messages from the source, then the
batched emission loop, then the close of the output sink. -/
theorem run_json_eq (m : PredictManager J I R) (env : Env J I)
    (hdr : m.dataset_reader = none) :
    m.run env = .ok ((m.getJsonData env).1.map Effect.printed ++
      runBatches m env.dumps m.predictJson 0
        (lazy_groups_of m.batch_size (m.getJsonData env).2) ++
      (if m.output_file.isSome then [Effect.closedOutput] else [])) := by
  unfold PredictManager.run
  rw [hdr]
  rfl

/-- When the batch operation is the element-wise single-record
operation, `_predict_json` is a plain map over the batch (the length-1
branch agrees with the map). -/
theorem predictJson_pointwise (m : PredictManager J I R)
    (hpoint : ∀ b, m.predictor.predict_batch_json b = b.map m.predictor.predict_json)
    (b : List J) :
    m.predictJson b =
      b.map (fun j => m.predictor.dump_line (m.predictor.predict_json j)) := by
  match b with
  | [] => simp [PredictManager.predictJson, hpoint]
  | [x] => simp [PredictManager.predictJson]
  | x :: y :: rest => simp [PredictManager.predictJson, hpoint]

/-- Mapping element-wise inside each chunk and flattening is mapping
over the flattened list. -/
theorem flatMap_map_eq (g : α → β) (chunks : List (List α)) :
    chunks.flatMap (fun b => b.map g) = chunks.flatten.map g := by
  induction chunks with
  | nil => rfl
  | cons b rest ih => simp [ih]

/-- `emitPairs` only looks at the console flag and the output sink of
the manager. -/
theorem emitPairs_congr (m₁ m₂ : PredictManager J I R) (render : α → String)
    (hp : m₁.print_to_console = m₂.print_to_console)
    (ho : m₁.output_file = m₂.output_file) (idx : Nat) (l : List (α × String)) :
    emitPairs m₁ render idx l = emitPairs m₂ render idx l := by
  induction l generalizing idx with
  | nil => rfl
  | cons p rest ih =>
    obtain ⟨a, s⟩ := p
    simp only [emitPairs, PredictManager.maybePrint, hp, ho, ih (idx + 1)]

/-- The per-record emission never closes the output file. -/
theorem closedOutput_not_mem_maybePrint (m : PredictManager J I R) (idx : Nat)
    (s : String) (mi : Option String) :
    Effect.closedOutput ∉ m.maybePrint idx s mi := by
  unfold PredictManager.maybePrint
  intro h
  rcases List.mem_append.1 h with h1 | h2
  · split at h1
    · cases mi <;> simp_all
    · simp_all
  · split at h2 <;> simp_all

theorem closedOutput_not_mem_emitPairs (m : PredictManager J I R)
    (render : α → String) (idx : Nat) (l : List (α × String)) :
    Effect.closedOutput ∉ emitPairs m render idx l := by
  induction l generalizing idx with
  | nil => simp [emitPairs]
  | cons p rest ih =>
    obtain ⟨a, s⟩ := p
    simp only [emitPairs, List.mem_append]
    rintro (h | h)
    · exact closedOutput_not_mem_maybePrint m idx s _ h
    · exact ih (idx + 1) h

theorem closedOutput_not_mem_runBatches (m : PredictManager J I R)
    (render : α → String) (predictF : List α → List String) (idx : Nat)
    (chunks : List (List α)) :
    Effect.closedOutput ∉ runBatches m render predictF idx chunks := by
  rw [runBatches_eq_emitPairs]
  exact closedOutput_not_mem_emitPairs m render idx _

/-- `run()` in reader mode when instance production raises: the
exception propagates and nothing is emitted or closed. -/
theorem run_instance_err_eq (m : PredictManager J I R) (env : Env J I)
    (hdr : m.dataset_reader.isSome) (e : PredictError)
    (hgi : m.getInstanceData = .error e) : m.run env = .error e := by
  unfold PredictManager.run
  rw [if_pos hdr, hgi]

/-- `run()` in reader mode when instance production succeeds. -/
theorem run_instance_ok_eq (m : PredictManager J I R) (env : Env J I)
    (hdr : m.dataset_reader.isSome) (instances : List I)
    (hgi : m.getInstanceData = .ok instances) :
    m.run env = .ok (runBatches m env.instStr m.predictIns 0
      (lazy_groups_of m.batch_size instances) ++
      (if m.output_file.isSome then [Effect.closedOutput] else [])) := by
  unfold PredictManager.run
  rw [if_pos hdr, hgi]

/-- Every `.ok` trace of `run()` is a prefix that never closes the
output file, followed by exactly the conditional close. -/
theorem run_ok_shape (m : PredictManager J I R) (env : Env J I)
    (fx : List Effect) (hok : m.run env = .ok fx) :
    ∃ pre : List Effect, Effect.closedOutput ∉ pre ∧
      fx = pre ++ (if m.output_file.isSome then [Effect.closedOutput] else []) := by
  by_cases hdr : m.dataset_reader.isSome
  · cases hgi : m.getInstanceData with
    | error e => rw [run_instance_err_eq m env hdr e hgi] at hok; cases hok
    | ok instances =>
      rw [run_instance_ok_eq m env hdr instances hgi] at hok
      have hfx := (Except.ok.inj hok).symm
      exact ⟨_, closedOutput_not_mem_runBatches m env.instStr m.predictIns 0
        (lazy_groups_of m.batch_size instances), hfx⟩
  · have hdr' : m.dataset_reader = none := by
      cases h : m.dataset_reader
      · rfl
      · rw [h] at hdr; simp at hdr
    rw [run_json_eq m env hdr'] at hok
    have hfx := (Except.ok.inj hok).symm
    refine ⟨(m.getJsonData env).1.map Effect.printed ++
      runBatches m env.dumps m.predictJson 0
        (lazy_groups_of m.batch_size (m.getJsonData env).2), ?_, ?_⟩
    · simp only [List.mem_append]
      rintro (h | h)
      · simp at h
      · exact closedOutput_not_mem_runBatches m env.dumps m.predictJson 0 _ h
    · rw [hfx, List.append_assoc]

/-- The line loop keeps exactly the lines Python's `isspace` rejects,
parsed in order. -/
theorem yieldLines_eq_filter (p : Predictor J I R) (ls : List String) :
    yieldLines p ls = (ls.filter (fun l => !pyIsSpace l)).map p.load_line := by
  induction ls with
  | nil => rfl
  | cons line rest ih =>
    by_cases h : pyIsSpace line
    · simp [yieldLines, h, ih]
    · simp [yieldLines, h, ih]

theorem getJsonData_stdin (m : PredictManager J I R) (env : Env J I)
    (hin : m.input_file = "-") :
    m.getJsonData env = ([], yieldLines m.predictor env.stdin) := by
  unfold PredictManager.getJsonData
  rw [if_pos hin]

theorem getJsonData_open_ok (m : PredictManager J I R) (env : Env J I)
    (hin : m.input_file ≠ "-") (lines : List String)
    (hopen : env.openCompressed (env.cachedPath m.input_file) m.compression_type
      = some lines) :
    m.getJsonData env = ([], yieldLines m.predictor lines) := by
  unfold PredictManager.getJsonData
  rw [if_neg hin]
  cases hct : m.compression_type with
  | none => rw [hct] at hopen; simp only [hopen]
  | some ct => rw [hct] at hopen; simp only [hopen]

theorem getJsonData_detect_fail (m : PredictManager J I R) (env : Env J I)
    (hin : m.input_file ≠ "-") (hct : m.compression_type = none)
    (hopen : env.openCompressed (env.cachedPath m.input_file) none = none) :
    m.getJsonData env =
      (["Automatic detection failed, please specify the compression type argument."],
        []) := by
  unfold PredictManager.getJsonData
  rw [if_neg hin]
  simp only [hct, hopen]

/-! ### Concrete fixtures used by the witnesses -/

/-- A concrete predictor over `Nat` records: `load_line` is the line
length, JSON prediction adds 100, instance prediction adds 200. -/
def pNat : Predictor Nat Nat Nat where
  predict_json := fun j => j + 100
  predict_batch_json := fun b => b.map (fun j => j + 100)
  predict_instance := fun i => i + 200
  predict_batch_instance := fun b => b.map (fun i => i + 200)
  dump_line := fun r => toString r ++ "\n"
  load_line := fun s => s.length
  dataset_reader := DatasetReader.plain (fun _ => [1, 2, 3])

/-- The same predictor with a multitask dataset reader. -/
def pNatMulti : Predictor Nat Nat Nat :=
  { pNat with dataset_reader := DatasetReader.multiTask (fun _ _ => [7, 8]) }

/-- Standard input with one whitespace-only line between two records. -/
def envNat : Env Nat Nat where
  stdin := ["{}\n", " \n", "abcd\n"]
  openCompressed := fun _ _ => some ["ab\n", "\t\n", "abcde\n"]
  cachedPath := fun s => s
  dumps := fun j => toString j
  instStr := fun i => toString i

/-- A world where `open_compressed` raises `OSError` on every file. -/
def envFail : Env Nat Nat := { envNat with openCompressed := fun _ _ => none }

/-- A world with empty standard input. -/
def envEmpty : Env Nat Nat := { envNat with stdin := [] }

/-- A raw-JSON-mode manager reading stdin in batches of 2, printing to
the console and writing to an output file. -/
def mJson2 : PredictManager Nat Nat Nat where
  predictor := pNat
  input_file := "-"
  output_file := some "out.txt"
  batch_size := 2
  print_to_console := true
  dataset_reader := none
  compression_type := none
  multitask_head := none

/-- Reader-mode manager pointed at stdin. -/
def mReaderStdin : PredictManager Nat Nat Nat :=
  { mJson2 with dataset_reader := some (DatasetReader.plain (fun _ => [1, 2, 3])) }

/-- Raw-JSON-mode manager on a plain file (for the detection-failure
path). -/
def mDetect : PredictManager Nat Nat Nat := { mJson2 with input_file := "input.jsonl" }

/-- Reader-mode manager over a plain dataset reader producing three
instances from a file. -/
def mReaderFile : PredictManager Nat Nat Nat :=
  { mJson2 with input_file := "data.jsonl",
                dataset_reader := some (DatasetReader.plain (fun _ => [1, 2, 3])) }

/-! ### Claim theorems -/

/-- Claim C1: for every finite input record stream — in raw-JSON mode
and in reader mode alike — and every batch size at least 1, assuming
the predictor's batch operation returns exactly one result per input,
`run()` emits exactly one prediction per input record, and predictions
appear in source order within and across batches: the trace is
`emitPairs` over `records.zip preds` with `preds` of the same length as
`records`, so the `i`-th emitted prediction is paired with the `i`-th
source record. -/
theorem C1_run_emits_one_prediction_per_record_in_order
    (m : PredictManager J I R) (env : Env J I) (hk : 1 ≤ m.batch_size) :
    (∀ records : List J,
      m.dataset_reader = none →
      m.getJsonData env = ([], records) →
      (∀ b, (m.predictor.predict_batch_json b).length = b.length) →
      ∃ preds : List String,
        preds = (lazy_groups_of m.batch_size records).flatMap m.predictJson ∧
        preds.length = records.length ∧
        m.run env = .ok (emitPairs m env.dumps 0 (records.zip preds) ++
          (if m.output_file.isSome then [Effect.closedOutput] else []))) ∧
    (∀ instances : List I,
      m.dataset_reader.isSome = true →
      m.getInstanceData = .ok instances →
      (∀ b, (m.predictor.predict_batch_instance b).length = b.length) →
      ∃ preds : List String,
        preds = (lazy_groups_of m.batch_size instances).flatMap m.predictIns ∧
        preds.length = instances.length ∧
        m.run env = .ok (emitPairs m env.instStr 0 (instances.zip preds) ++
          (if m.output_file.isSome then [Effect.closedOutput] else []))) := by
  constructor
  · intro records hdr hjson hlen
    have hplen : ∀ b, (m.predictJson b).length = b.length := predictJson_length m hlen
    refine ⟨_, rfl, ?_, ?_⟩
    · rw [length_flatMap_eq _ _ hplen, lazy_groups_of_flatten _ hk]
    · rw [run_json_eq m env hdr, hjson]
      simp only [List.map_nil, List.nil_append]
      rw [runBatches_eq_emitPairs, flatMap_zip_eq _ _ hplen,
        lazy_groups_of_flatten _ hk]
  · intro instances hdr hinst hlen
    have hplen : ∀ b, (m.predictIns b).length = b.length := predictIns_length m hlen
    refine ⟨_, rfl, ?_, ?_⟩
    · rw [length_flatMap_eq _ _ hplen, lazy_groups_of_flatten _ hk]
    · rw [run_instance_ok_eq m env hdr instances hinst]
      rw [runBatches_eq_emitPairs, flatMap_zip_eq _ _ hplen,
        lazy_groups_of_flatten _ hk]

/-- Witness for C1: batch size 2 over the two non-whitespace stdin
records of `envNat` (raw-JSON mode), and batch size 2 over the three
instances the plain reader of `mReaderFile` produces (reader mode). -/
theorem C1_witness :
    (∃ preds : List String,
      preds = (lazy_groups_of mJson2.batch_size [3, 5]).flatMap mJson2.predictJson ∧
      preds.length = ([3, 5] : List Nat).length ∧
      mJson2.run envNat = .ok (emitPairs mJson2 envNat.dumps 0 ([3, 5].zip preds) ++
        (if mJson2.output_file.isSome then [Effect.closedOutput] else []))) ∧
    (∃ preds : List String,
      preds = (lazy_groups_of mReaderFile.batch_size [1, 2, 3]).flatMap
        mReaderFile.predictIns ∧
      preds.length = ([1, 2, 3] : List Nat).length ∧
      mReaderFile.run envNat = .ok (emitPairs mReaderFile envNat.instStr 0
        ([1, 2, 3].zip preds) ++
        (if mReaderFile.output_file.isSome then [Effect.closedOutput] else []))) :=
  ⟨(C1_run_emits_one_prediction_per_record_in_order mJson2 envNat (by decide)).1
      [3, 5] rfl (by decide) (fun b => by simp [mJson2, pNat]),
   (C1_run_emits_one_prediction_per_record_in_order mReaderFile envNat (by decide)).2
      [1, 2, 3] rfl rfl (fun b => by simp [mReaderFile, mJson2, pNat])⟩

/-- Claim C3: in raw-JSON mode, running with batch size `k > 1` and with
batch size 1 produce the identical run result — in particular the same
sequence of per-record prediction lines — whenever the predictor's batch
operation is the element-wise application of its single-record
operation. The two managers differ only in `batch_size`. -/
theorem C3_batching_does_not_change_results
    (p : Predictor J I R) (env : Env J I) (input_file : String)
    (output_file : Option String) (k : Nat) (ptc : Bool)
    (ct mh : Option String) (hk : 1 < k)
    (hpoint : ∀ b, p.predict_batch_json b = b.map p.predict_json) :
    (PredictManager.mk p input_file output_file k ptc none ct mh).run env =
      (PredictManager.mk p input_file output_file 1 ptc none ct mh).run env := by
  set mK := PredictManager.mk p input_file output_file k ptc none ct mh
  set m1 := PredictManager.mk p input_file output_file 1 ptc none ct mh
  have hfK : mK.predictJson = fun b =>
      b.map (fun j => p.dump_line (p.predict_json j)) :=
    funext (predictJson_pointwise mK hpoint)
  have hf1 : m1.predictJson = fun b =>
      b.map (fun j => p.dump_line (p.predict_json j)) :=
    funext (predictJson_pointwise m1 hpoint)
  rw [run_json_eq mK env rfl, run_json_eq m1 env rfl]
  have hjd : mK.getJsonData env = m1.getJsonData env := rfl
  rw [hjd]
  congr 1
  congr 1
  rw [runBatches_eq_emitPairs, runBatches_eq_emitPairs]
  have hlen : ∀ b : List J,
      (b.map (fun j => p.dump_line (p.predict_json j))).length = b.length :=
    fun b => by simp
  rw [hfK, hf1, flatMap_zip_eq _ _ hlen, flatMap_zip_eq _ _ hlen,
    flatMap_map_eq, flatMap_map_eq,
    lazy_groups_of_flatten k (by omega), lazy_groups_of_flatten 1 (by omega)]
  rw [emitPairs_congr mK m1 env.dumps rfl rfl 0 _]

/-- Witness for C3 at batch size 2 over the concrete stdin stream. -/
theorem C3_witness :
    (PredictManager.mk pNat "-" (some "out.txt") 2 true none none none).run envNat =
      (PredictManager.mk pNat "-" (some "out.txt") 1 true none none none).run envNat :=
  C3_batching_does_not_change_results pNat envNat "-" (some "out.txt") 2 true
    none none (by decide) (fun b => rfl)

/-- Claim C4: direct construction of the manager raises a configuration
error when a head is given without a reader, when a head is given with a
non-multitask reader, or when a multitask reader is configured without a
head. The constructor has no access to any input source, so the
validation necessarily happens before any record is read. -/
theorem C4_constructor_validates_multitask_configuration
    (p : Predictor J I R) (input_file : String) (output_file : Option String)
    (batch_size : Nat) (print_to_console has_dataset_reader : Bool)
    (compression_type multitask_head : Option String)
    (h : (multitask_head.isSome = true ∧ has_dataset_reader = false) ∨
         (multitask_head.isSome = true ∧ has_dataset_reader = true ∧
           p.dataset_reader.isMultiTask = false) ∨
         (multitask_head = none ∧ has_dataset_reader = true ∧
           p.dataset_reader.isMultiTask = true)) :
    ∃ msg : String, mk_predict_manager p input_file output_file batch_size
      print_to_console has_dataset_reader compression_type multitask_head =
      .error (.configurationError msg) := by
  unfold mk_predict_manager
  rcases h with ⟨h1, h2⟩ | ⟨h1, h2, h3⟩ | ⟨h1, h2, h3⟩
  · subst h2
    refine ⟨"You must use a dataset reader when using --multitask-head.", ?_⟩
    simp [h1]
  · subst h2
    refine ⟨"--multitask-head only works with a multitask dataset reader.", ?_⟩
    simp [h1, readerIsMultiTask, h3]
  · subst h1 h2
    refine ⟨"You must specify --multitask-head when using a multitask dataset reader.", ?_⟩
    simp [readerIsMultiTask, h3]

/-- Witness for C4: a head name with no dataset reader configured. -/
theorem C4_witness :
    ∃ msg : String, mk_predict_manager pNat "in.jsonl" none 1 true false none
      (some "tagger") = .error (.configurationError msg) :=
  C4_constructor_validates_multitask_configuration pNat "in.jsonl" none 1 true
    false none (some "tagger") (Or.inl ⟨rfl, rfl⟩)

/-- Claim C5: a batch with exactly one record goes through the
single-record operation (`predict_json` / `predict_instance`), a batch
with more than one record goes through the batch operation
(`predict_batch_json` / `predict_batch_instance`), in both input
modes. (These are the only batch shapes `run()` produces for a positive
batch size.) -/
theorem C5_singleton_batches_use_single_record_operation
    (m : PredictManager J I R) :
    (∀ j : J, m.predictJson [j] =
      [m.predictor.dump_line (m.predictor.predict_json j)]) ∧
    (∀ b : List J, 1 < b.length →
      m.predictJson b = (m.predictor.predict_batch_json b).map m.predictor.dump_line) ∧
    (∀ i : I, m.predictIns [i] =
      [m.predictor.dump_line (m.predictor.predict_instance i)]) ∧
    (∀ b : List I, 1 < b.length →
      m.predictIns b = (m.predictor.predict_batch_instance b).map m.predictor.dump_line) := by
  refine ⟨fun j => rfl, fun b hb => ?_, fun i => rfl, fun b hb => ?_⟩
  · cases b with
    | nil => simp at hb
    | cons x t =>
      cases t with
      | nil => simp at hb
      | cons y rest => rfl
  · cases b with
    | nil => simp at hb
    | cons x t =>
      cases t with
      | nil => simp at hb
      | cons y rest => rfl

/-- Witness for C5: a two-record batch dispatches to the batch
operation. -/
theorem C5_witness :
    mJson2.predictJson [3, 5] =
      (mJson2.predictor.predict_batch_json [3, 5]).map mJson2.predictor.dump_line :=
  (C5_singleton_batches_use_single_record_operation mJson2).2.1 [3, 5] (by decide)

/-- Claim C6: in reader mode, an input file of `-` makes `run()` raise
the configuration error before anything happens: the result carries no
effect trace (nothing printed, written or closed), and it is the same
for every environment, so in particular nothing is read from standard
input. -/
theorem C6_reader_mode_rejects_stdin (m : PredictManager J I R)
    (env : Env J I) (hdr : m.dataset_reader.isSome = true)
    (hin : m.input_file = "-") :
    m.run env = .error (.configurationError
      "stdin is not an option when using a DatasetReader.") := by
  apply run_instance_err_eq m env hdr
  unfold PredictManager.getInstanceData
  rw [if_pos hin]

/-- Witness for C6: the reader-mode manager pointed at stdin. -/
theorem C6_witness :
    mReaderStdin.run envNat = .error (.configurationError
      "stdin is not an option when using a DatasetReader.") :=
  C6_reader_mode_rejects_stdin mReaderStdin envNat rfl rfl

/-- CLI arguments: `--silent` without `--output-file`. -/
def argsSilent : Args where
  archive_file := "model.tar.gz"
  input_file := "-"
  output_file := none
  weights_file := none
  batch_size := 1
  silent := true
  cuda_device := -1
  use_dataset_reader := false
  dataset_reader_choice := "validation"
  compression_type := none
  multitask_head := none
  ovr := ""
  predictor_name := none
  predictor_args := ""
  file_friendly_logging := false

/-- Claim C7: with the silent flag set and no output file, `_predict`
prints the informational message and exits 0 early: the outcome is
`exitedEarly`, so no manager is constructed, no record read, no
prediction produced. -/
theorem C7_silent_without_output_file_exits_early (p : Predictor J I R)
    (args : Args) (env : Env J I) (hs : args.silent = true)
    (ho : args.output_file = none) :
    cliPredict p args env = .exitedEarly
      ["--silent specified without --output-file.",
       "Exiting early because no output will be created."] := by
  unfold cliPredict
  rw [hs, ho]
  rfl

/-- Witness for C7. -/
theorem C7_witness :
    cliPredict pNat argsSilent envNat = .exitedEarly
      ["--silent specified without --output-file.",
       "Exiting early because no output will be created."] :=
  C7_silent_without_output_file_exits_early pNat argsSilent envNat rfl rfl

/-- Claim C8: in raw-JSON mode with no compression type, when opening
the input raises `OSError`, `run()` prints the message asking for an
explicit compression type, produces no record and no prediction (the
trace holds no other effect besides the close of the sink), and returns
normally rather than crashing. -/
theorem C8_detection_failure_reports_and_stops (m : PredictManager J I R)
    (env : Env J I) (hdr : m.dataset_reader = none) (hin : m.input_file ≠ "-")
    (hct : m.compression_type = none)
    (hopen : env.openCompressed (env.cachedPath m.input_file) none = none) :
    m.run env = .ok (Effect.printed
      "Automatic detection failed, please specify the compression type argument." ::
      (if m.output_file.isSome then [Effect.closedOutput] else [])) := by
  rw [run_json_eq m env hdr, getJsonData_detect_fail m env hin hct hopen]
  simp [lazy_groups_of, runBatches]

/-- Witness for C8: a plain file whose open fails in `envFail`. -/
theorem C8_witness :
    mDetect.run envFail = .ok (Effect.printed
      "Automatic detection failed, please specify the compression type argument." ::
      (if mDetect.output_file.isSome then [Effect.closedOutput] else [])) :=
  C8_detection_failure_reports_and_stops mDetect envFail rfl (by decide) rfl rfl

/-- Claim C9: whenever `run()` completes normally, the output sink is
closed exactly once and as the last effect when an output path is
configured (including for zero records), and never closed when no
output path is configured (no sink exists: `output_file` is `none`). -/
theorem C9_output_sink_closed_exactly_once (m : PredictManager J I R)
    (env : Env J I) (fx : List Effect) (hok : m.run env = .ok fx) :
    (m.output_file.isSome = true →
      fx.count Effect.closedOutput = 1 ∧ fx.getLast? = some Effect.closedOutput) ∧
    (m.output_file = none → fx.count Effect.closedOutput = 0) := by
  obtain ⟨pre, hpre, rfl⟩ := run_ok_shape m env fx hok
  constructor
  · intro ho
    rw [ho, if_pos rfl]
    constructor
    · rw [List.count_append, List.count_eq_zero.mpr hpre]
      rfl
    · rw [List.getLast?_append]
      rfl
  · intro ho
    have ho' : m.output_file.isSome = false := by rw [ho]; rfl
    rw [ho']
    simp [List.count_eq_zero.mpr hpre]

/-- Witness for C9: zero-record run with an output file; the sole
effect is the single close, and it is last. -/
theorem C9_witness :
    ([Effect.closedOutput] : List Effect).count Effect.closedOutput = 1 ∧
      ([Effect.closedOutput] : List Effect).getLast? = some Effect.closedOutput :=
  (C9_output_sink_closed_exactly_once mJson2 envEmpty [Effect.closedOutput]
    (by simp [PredictManager.run, mJson2, PredictManager.getJsonData, envEmpty,
      envNat, yieldLines, lazy_groups_of, runBatches])).1 rfl

/-- Claim C10: in raw-JSON mode every whitespace-only line is skipped:
the records produced (and hence passed on to batching and the
predictor by `run()`) are exactly the non-whitespace lines, parsed by
`load_line`, in order — for standard input and for (plain or
compressed) files alike. -/
theorem C10_whitespace_lines_are_skipped (m : PredictManager J I R)
    (env : Env J I) :
    (yieldLines m.predictor env.stdin =
      (env.stdin.filter (fun l => !pyIsSpace l)).map m.predictor.load_line) ∧
    (m.input_file = "-" →
      m.getJsonData env =
        ([], (env.stdin.filter (fun l => !pyIsSpace l)).map m.predictor.load_line)) ∧
    (∀ lines : List String, m.input_file ≠ "-" →
      env.openCompressed (env.cachedPath m.input_file) m.compression_type
        = some lines →
      m.getJsonData env =
        ([], (lines.filter (fun l => !pyIsSpace l)).map m.predictor.load_line)) := by
  refine ⟨yieldLines_eq_filter m.predictor env.stdin, fun hin => ?_,
    fun lines hin hopen => ?_⟩
  · rw [getJsonData_stdin m env hin, yieldLines_eq_filter]
  · rw [getJsonData_open_ok m env hin lines hopen, yieldLines_eq_filter]

/-- Witness for C10: the stdin stream with a whitespace-only middle
line. -/
theorem C10_witness :
    mJson2.getJsonData envNat =
      ([], (envNat.stdin.filter (fun l => !pyIsSpace l)).map
        mJson2.predictor.load_line) :=
  (C10_whitespace_lines_are_skipped mJson2 envNat).2.1 rfl

/-- CLI arguments: `--multitask-head tagger` without
`--use-dataset-reader` (stdin input, console on, an output file). -/
def argsHeadNoReader : Args where
  archive_file := "model.tar.gz"
  input_file := "-"
  output_file := some "out.txt"
  weights_file := none
  batch_size := 1
  silent := false
  cuda_device := -1
  use_dataset_reader := false
  dataset_reader_choice := "validation"
  compression_type := none
  multitask_head := some "tagger"
  ovr := ""
  predictor_name := none
  predictor_args := ""
  file_friendly_logging := false

/-- CLI arguments: `--use-dataset-reader --multitask-head tagger` over a
file, against a predictor whose reader is multitask. -/
def argsHeadWithMultiReader : Args :=
  { argsHeadNoReader with use_dataset_reader := true, input_file := "data.jsonl" }

/-- The manager `_predict` actually constructs for `argsHeadNoReader`:
the CLI's head name landed in `compression_type` and `multitask_head`
stayed `None`. -/
def mC2 : PredictManager Nat Nat Nat where
  predictor := pNat
  input_file := "-"
  output_file := some "out.txt"
  batch_size := 1
  print_to_console := true
  dataset_reader := none
  compression_type := some "tagger"
  multitask_head := none

/-- Claim C2 fails on the code (code bug): `_predict` passes
`args.multitask_head` as the seventh positional argument of
`_PredictManager`, which is the `compression_type` parameter. So with
`--multitask-head tagger` and no dataset reader, construction succeeds
(with `compression_type = "tagger"` and `multitask_head = None`),
records are read and predicted instead of failing with a configuration
error; and conversely the correct invocation — a multitask reader with
`--multitask-head` supplied — fails construction with the complaint
that no head was specified. -/
theorem C2_cli_passes_multitask_head_as_compression_type :
    mC2.multitask_head = none ∧ mC2.compression_type = some "tagger" ∧
    cliPredict pNat argsHeadNoReader envNat =
      .ran mC2 (.ok [Effect.printed "input 0:  3",
        Effect.printed "prediction:  103\n", Effect.wrote "103\n",
        Effect.printed "input 1:  5", Effect.printed "prediction:  105\n",
        Effect.wrote "105\n", Effect.closedOutput]) ∧
    cliPredict pNatMulti argsHeadWithMultiReader envNat =
      .constructionFailed (.configurationError
        "You must specify --multitask-head when using a multitask dataset reader.") := by
  refine ⟨rfl, rfl, ?_, rfl⟩
  have hcli : cliPredict pNat argsHeadNoReader envNat = .ran mC2 (mC2.run envNat) := rfl
  rw [hcli]
  have hjson : mC2.getJsonData envNat = ([], [3, 5]) := by decide
  have hchunks : lazy_groups_of 1 [3, 5] = [[3], [5]] := by
    rw [lazy_groups_of]
    simp only [List.take_cons, List.drop_succ_cons, List.take_nil, List.drop_nil,
      List.take_zero, List.drop_zero]
    rw [lazy_groups_of]
    simp only [List.take_cons, List.drop_succ_cons, List.take_nil, List.drop_nil,
      List.take_zero, List.drop_zero]
    rw [lazy_groups_of]
    rfl
  have hbs : mC2.batch_size = 1 := rfl
  rw [run_json_eq mC2 envNat rfl, hjson, hbs, hchunks]
  rfl
